import Mathlib

/-!
Shallow embedding of the generic transaction envelope machinery of the
Hedera Rust SDK (`src/sdk/rust/src/transaction/mod.rs`) together with two
concrete payload kinds (`src/src/ethereum/ethereum_transaction.rs`,
`src/src/token/token_unpause_transaction.rs`), and proofs of the
claimed properties of freezing, defaulting, signing and chunk rendering.

Machine integers are modelled as `Nat`/`Int` with explicit wrap where the
source casts; `&mut self` methods returning `Result` become explicit
state passing (`Transaction D → Transaction D × Except Error Unit`), and
a Rust `assert!`/panic is modelled by the dedicated `MutationOutcome.panicked`
constructor, kept distinct from recoverable typed errors.
-/

namespace Hedera

/-- Account identifier; the claims only need identity, so an opaque `Nat`. -/
abbrev AccountId := Nat

/-- Transaction identifier; opaque for the claims considered here. -/
abbrev TransactionId := Nat

/-- `time::Duration` in seconds (`i64`). -/
abbrev Duration := Int

/-- The operator (payer account + signing identity) captured from the client;
opaque for the claims considered here. -/
abbrev Operator := Nat

/-- Ledger (network) identity against which entity-id checksums are validated. -/
abbrev LedgerId := Nat

/-- `Hbar` stores an amount of tinybars (`i64` in the source). -/
structure Hbar where
  tinybars : Int
deriving DecidableEq, Repr

/-- `Hbar::from_tinybars`. -/
def Hbar.from_tinybars (t : Int) : Hbar := ⟨t⟩

/-- The `max as i64` cast in `freeze_with`: reinterpret a `u64` value as `i64`
(two's complement wrap). -/
def u64_as_i64 (n : Nat) : Int :=
  if n % 2 ^ 64 < 2 ^ 63 then ((n % 2 ^ 64 : Nat) : Int)
  else ((n % 2 ^ 64 : Nat) : Int) - 2 ^ 64

/-- The subset of `crate::Error` variants reached by the embedded code, plus
the two kinds the spec names for code whose body is not under `src/`
(`UnsupportedChunking`) and for stating the spec's claimed taxonomy
(`FrozenContractViolation` — the source never constructs this variant;
it panics instead, see `Transaction.require_not_frozen`). -/
inductive Error where
  | FreezeUnsetNodeAccountIds
  | CannotPerformTaskWithoutLedgerId (task : String)
  | BadEntityId (shard realm num : Nat) (present expected : Nat)
  | NoPayerAccountOrTransactionId
  | UnsupportedChunking
  | FrozenContractViolation
deriving DecidableEq, Repr

/-- Outcome of calling a `&mut self` mutator: either the updated value, a
recoverable typed error, or a process abort (`assert!`/`panic!`). -/
inductive MutationOutcome (α : Type) where
  | ok (a : α)
  | err (e : Error)
  | panicked (msg : String)
deriving DecidableEq, Repr

/-- A private key; opaque, its public key is derived by identity. -/
structure PrivateKey where
  key_id : Nat
deriving DecidableEq, Repr

/-- `PublicKey` is only compared for equality; opaque `Nat`. -/
abbrev PublicKey := Nat

/-- `PrivateKey::public_key`. -/
def PrivateKey.public_key (k : PrivateKey) : PublicKey := k.key_id

/-- `AnySigner`: a private key, or an arbitrary signing capability paired
with its public key (the capability itself is opaque). -/
inductive AnySigner where
  | privateKey (k : PrivateKey)
  | arbitrary (pk : PublicKey) (capability : Nat)
deriving DecidableEq, Repr

/-- `AnySigner::public_key`. -/
def AnySigner.public_key : AnySigner → PublicKey
  | AnySigner.privateKey k => k.public_key
  | AnySigner.arbitrary pk _ => pk

/-- `TransactionBody<D>` (all fields from the source). -/
structure TransactionBody (D : Type) where
  data : D
  node_account_ids : Option (List AccountId)
  transaction_valid_duration : Option Duration
  max_transaction_fee : Option Hbar
  transaction_memo : String
  transaction_id : Option TransactionId
  operator : Option Operator
  is_frozen : Bool
deriving DecidableEq, Repr

/-- `Transaction<D>`: body plus the signer list. -/
structure Transaction (D : Type) where
  body : TransactionBody D
  signers : List AnySigner
deriving DecidableEq, Repr

/-- `Transaction::<D>::default()` / `new()`; the payload default is passed
explicitly (Rust uses `D::default()`). -/
def Transaction.new (d : D) : Transaction D :=
  { body :=
      { data := d
        node_account_ids := none
        transaction_valid_duration := none
        max_transaction_fee := none
        transaction_memo := ""
        transaction_id := none
        operator := none
        is_frozen := false }
    signers := [] }

/-- `Transaction::is_frozen`. -/
def Transaction.is_frozen (self : Transaction D) : Bool :=
  self.body.is_frozen

/-- The panic message of `require_not_frozen`. -/
def immutable_msg : String :=
  "transaction is immutable; it has at least one signature or has been explicitly frozen"

/-- `Transaction::require_not_frozen`: an `assert!`, i.e. a panic (process
abort) when the transaction is frozen — not a typed error. -/
def Transaction.require_not_frozen (self : Transaction D) : MutationOutcome Unit :=
  if self.body.is_frozen then MutationOutcome.panicked immutable_msg
  else MutationOutcome.ok ()

/-- `Transaction::node_account_ids` setter (goes through `body_mut`, which
calls `require_not_frozen`). -/
def Transaction.node_account_ids (self : Transaction D) (ids : List AccountId) :
    MutationOutcome (Transaction D) :=
  if self.body.is_frozen then MutationOutcome.panicked immutable_msg
  else MutationOutcome.ok
    { self with body := { self.body with node_account_ids := some ids } }

/-- `Transaction::transaction_valid_duration` setter. -/
def Transaction.transaction_valid_duration (self : Transaction D) (duration : Duration) :
    MutationOutcome (Transaction D) :=
  if self.body.is_frozen then MutationOutcome.panicked immutable_msg
  else MutationOutcome.ok
    { self with body := { self.body with transaction_valid_duration := some duration } }

/-- `Transaction::max_transaction_fee` setter. -/
def Transaction.max_transaction_fee (self : Transaction D) (fee : Hbar) :
    MutationOutcome (Transaction D) :=
  if self.body.is_frozen then MutationOutcome.panicked immutable_msg
  else MutationOutcome.ok
    { self with body := { self.body with max_transaction_fee := some fee } }

/-- `Transaction::transaction_memo` setter. -/
def Transaction.transaction_memo (self : Transaction D) (memo : String) :
    MutationOutcome (Transaction D) :=
  if self.body.is_frozen then MutationOutcome.panicked immutable_msg
  else MutationOutcome.ok
    { self with body := { self.body with transaction_memo := memo } }

/-- `Transaction::transaction_id` setter. -/
def Transaction.transaction_id (self : Transaction D) (id : TransactionId) :
    MutationOutcome (Transaction D) :=
  if self.body.is_frozen then MutationOutcome.panicked immutable_msg
  else MutationOutcome.ok
    { self with body := { self.body with transaction_id := some id } }

/-- `Transaction::data_mut` followed by a field write on the payload: every
payload-specific setter has this shape (`self.data_mut().field = v`). -/
def Transaction.data_mut_set (self : Transaction D) (f : D → D) :
    MutationOutcome (Transaction D) :=
  if self.body.is_frozen then MutationOutcome.panicked immutable_msg
  else MutationOutcome.ok
    { self with body := { self.body with data := f self.body.data } }

/-- `Transaction::sign_signer`: skip the signer if one with the same public
key is already present, otherwise push it. Does not require or set frozen. -/
def Transaction.sign_signer (self : Transaction D) (signer : AnySigner) : Transaction D :=
  if self.signers.any (fun it => it.public_key == signer.public_key) then self
  else { self with signers := self.signers ++ [signer] }

/-- `Transaction::sign`. -/
def Transaction.sign (self : Transaction D) (private_key : PrivateKey) : Transaction D :=
  self.sign_signer (AnySigner.privateKey private_key)

/-- `Transaction::sign_with`. -/
def Transaction.sign_with (self : Transaction D) (public_key : PublicKey) (signer : Nat) :
    Transaction D :=
  self.sign_signer (AnySigner.arbitrary public_key signer)

/-- Modelled from the spec: `Client` is not under `src/`. It carries exactly
the observations `freeze_with` makes of it — `random_node_ids()` (a
pseudo-random subset of the client's known healthy nodes, recorded here as
the list that call returns), the atomic `u64` default `max_transaction_fee`
in tinybars (`0` meaning unset), `auto_validate_checksums()`, the configured
ledger identity, and the configured operator. -/
structure Client where
  random_node_ids : List AccountId
  max_transaction_fee : Nat
  auto_validate_checksums : Bool
  ledger_id : Option LedgerId
  operator : Option Operator
deriving DecidableEq, Repr

/-- Modelled from the spec: the entity-id checksum algorithm is not under
`src/`; per §4.5 it is a recomputation from the identifier's numeric
components and the network identity, compared for equality. Any concrete
such function supports the claims, which depend only on match vs mismatch. -/
def entity_checksum (shard realm num : Nat) (ledger_id : LedgerId) : Nat :=
  (shard * 31 + realm * 17 + num * 7 + ledger_id * 3) % 456976

/-- `FileId` with its optional checksum suffix. -/
structure FileId where
  shard : Nat
  realm : Nat
  num : Nat
  checksum : Option Nat
deriving DecidableEq, Repr

/-- Modelled from the spec: `FileId::validate_checksums` is not under `src/`.
Per §4.5: absent checksums are trivially valid; a present checksum is
recomputed and compared, failing fast naming the offending identifier. -/
def FileId.validate_checksums (id : FileId) (ledger_id : LedgerId) : Except Error Unit :=
  match id.checksum with
  | none => Except.ok ()
  | some c =>
    if c = entity_checksum id.shard id.realm id.num ledger_id then Except.ok ()
    else Except.error
      (Error.BadEntityId id.shard id.realm id.num c
        (entity_checksum id.shard id.realm id.num ledger_id))

/-- `TokenId` with its optional checksum suffix. -/
structure TokenId where
  shard : Nat
  realm : Nat
  num : Nat
  checksum : Option Nat
deriving DecidableEq, Repr

/-- Modelled from the spec: `TokenId::validate_checksums`, same contract as
`FileId.validate_checksums`. -/
def TokenId.validate_checksums (id : TokenId) (ledger_id : LedgerId) : Except Error Unit :=
  match id.checksum with
  | none => Except.ok ()
  | some c =>
    if c = entity_checksum id.shard id.realm id.num ledger_id then Except.ok ()
    else Except.error
      (Error.BadEntityId id.shard id.realm id.num c
        (entity_checksum id.shard id.realm id.num ledger_id))

/-- `impl ValidateChecksums for Option<T>`: `None` is trivially valid. -/
def validate_option_checksums (f : α → LedgerId → Except Error Unit) :
    Option α → LedgerId → Except Error Unit
  | none, _ => Except.ok ()
  | some x, ledger_id => f x ledger_id

/-- The `ValidateChecksums` trait: report and check the entity identifiers a
payload embeds. -/
class ValidateChecksums (D : Type) where
  validate_checksums : D → LedgerId → Except Error Unit

/-- `EthereumTransactionData` (`src/src/ethereum/ethereum_transaction.rs`). -/
structure EthereumTransactionData where
  ethereum_data : List Nat
  call_data_file_id : Option FileId
  max_gas_allowance_hbar : Hbar
deriving DecidableEq, Repr

/-- `EthereumTransactionData::default()`. -/
def EthereumTransactionData.default : EthereumTransactionData :=
  { ethereum_data := [], call_data_file_id := none, max_gas_allowance_hbar := ⟨0⟩ }

/-- `impl ValidateChecksums for EthereumTransactionData`: validates
`call_data_file_id`. -/
instance : ValidateChecksums EthereumTransactionData where
  validate_checksums d ledger_id :=
    validate_option_checksums FileId.validate_checksums d.call_data_file_id ledger_id

/-- `TokenUnpauseTransactionData` (`src/src/token/token_unpause_transaction.rs`). -/
structure TokenUnpauseTransactionData where
  token_id : Option TokenId
deriving DecidableEq, Repr

/-- `impl ValidateChecksums for TokenUnpauseTransactionData`: validates
`token_id`. -/
instance : ValidateChecksums TokenUnpauseTransactionData where
  validate_checksums d ledger_id :=
    validate_option_checksums TokenId.validate_checksums d.token_id ledger_id

/-- `EthereumTransaction::ethereum_data` setter (reaches the payload through
`data_mut`). -/
def Transaction.ethereum_data (self : Transaction EthereumTransactionData)
    (data : List Nat) : MutationOutcome (Transaction EthereumTransactionData) :=
  self.data_mut_set (fun it => { it with ethereum_data := data })

/-- The node-list resolution step of `freeze_with`: explicit envelope value,
else `client.random_node_ids()`, else `Error::FreezeUnsetNodeAccountIds`. -/
def resolve_node_account_ids (explicit : Option (List AccountId))
    (client : Option Client) : Except Error (List AccountId) :=
  match explicit with
  | some it => Except.ok it
  | none =>
    match client with
    | some c => Except.ok c.random_node_ids
    | none => Except.error Error.FreezeUnsetNodeAccountIds

/-- The fee resolution step of `freeze_with` (`max_transaction_fee.or_else`):
explicit envelope value, else the client's configured default when that
default exceeds `1` tinybar (cast `u64` → `i64`), else `none` (the
hard-coded per-kind default is applied downstream). -/
def resolve_max_transaction_fee (explicit : Option Hbar) (client : Option Client) :
    Option Hbar :=
  match explicit with
  | some f => some f
  | none =>
    match client with
    | some c =>
      if 1 < c.max_transaction_fee then
        some (Hbar.from_tinybars (u64_as_i64 c.max_transaction_fee))
      else none
    | none => none

/-- The tail of `freeze_with`, after the node list resolved: resolve the fee
and operator, write all resolved fields and latch `is_frozen`, then (client
permitting) run automatic checksum validation — note the latch happens
before validation in the source, so a validation error leaves the
transaction frozen. -/
def Transaction.finish_freeze [ValidateChecksums D] (self : Transaction D)
    (client : Option Client) (node_account_ids : List AccountId) :
    Transaction D × Except Error Unit :=
  let frozen : Transaction D :=
    { self with body :=
        { self.body with
            node_account_ids := some node_account_ids
            max_transaction_fee :=
              resolve_max_transaction_fee self.body.max_transaction_fee client
            operator := client.bind Client.operator
            is_frozen := true } }
  (frozen,
    match client with
    | none => Except.ok ()
    | some c =>
      if c.auto_validate_checksums then
        match c.ledger_id with
        | some ledger_id =>
          ValidateChecksums.validate_checksums frozen.body.data ledger_id
        | none =>
          Except.error (Error.CannotPerformTaskWithoutLedgerId "validate checksums")
      else Except.ok ())

/-- `Transaction::freeze_with`: no-op success when already frozen; otherwise
resolve the node list (failing, with no mutation, when neither an explicit
list nor a client is available) and finish the freeze. -/
def Transaction.freeze_with [ValidateChecksums D] (self : Transaction D)
    (client : Option Client) : Transaction D × Except Error Unit :=
  if self.body.is_frozen then (self, Except.ok ())
  else
    match resolve_node_account_ids self.body.node_account_ids client with
    | Except.error e => (self, Except.error e)
    | Except.ok node_account_ids => self.finish_freeze client node_account_ids

/-- `Transaction::freeze` = `freeze_with(None)`. -/
def Transaction.freeze [ValidateChecksums D] (self : Transaction D) :
    Transaction D × Except Error Unit :=
  self.freeze_with none

/-- Modelled from the spec: the hard-coded per-operation-kind default fee
(capability of the payload, §6) is applied downstream of `freeze_with` when
the resolved `max_transaction_fee` is still `none` (the source comment:
"fallback is used later"). The effective fee of a transaction given the
payload kind's hard-coded default. -/
def effective_max_transaction_fee (tx : Transaction D) (hardcoded : Hbar) : Hbar :=
  tx.body.max_transaction_fee.getD hardcoded

/-- `ChunkInfo` (spec §3): chunk index, total chunk count, and the base
request identity; the degenerate single-transaction case is `total = 1`. -/
structure ChunkInfo where
  index : Nat
  total : Nat
  base_id : TransactionId
deriving DecidableEq, Repr

/-- The panic message of the single-transaction contract assertion. -/
def unsupported_chunking_msg : String :=
  "chunking is not supported by this transaction type"

/-- Modelled from the spec: the body of `ChunkInfo::assert_single_transaction`
is not under `src/`. Per §4.2 a single-transaction-only payload asked to
plan more than one chunk is a contract violation; the `assert_` name and the
callers' `let _ = ...;` discard (the callers return plain `Data`, with no
error channel) mean the violation is enforced by an `assert!`, i.e. a panic
— modelled, like `require_not_frozen`, as `MutationOutcome.panicked`. The
returned value (the base identity) is discarded by both callers. -/
def ChunkInfo.assert_single_transaction (ci : ChunkInfo) :
    MutationOutcome TransactionId :=
  if 1 < ci.total then MutationOutcome.panicked unsupported_chunking_msg
  else MutationOutcome.ok ci.base_id

/-- `FileId::to_protobuf`: the checksum suffix is not serialized. -/
def FileId.to_protobuf (id : FileId) : Nat × Nat × Nat :=
  (id.shard, id.realm, id.num)

/-- `TokenId::to_protobuf`: the checksum suffix is not serialized. -/
def TokenId.to_protobuf (id : TokenId) : Nat × Nat × Nat :=
  (id.shard, id.realm, id.num)

/-- The rendered `services::transaction_body::Data` union (the two arms the
embedded payload kinds produce). -/
inductive TransactionDataPb where
  | ethereumTransaction (ethereum_data : List Nat) (call_data : Option (Nat × Nat × Nat))
      (max_gas_allowance : Int)
  | tokenUnpause (token : Option (Nat × Nat × Nat))
deriving DecidableEq, Repr

/-- `EthereumTransactionData::to_transaction_data_protobuf`: the source
returns `services::transaction_body::Data` with no error channel and
discards the assertion's value with `let _ = ...;` — so only a panic inside
the assertion escapes (propagated here as `panicked`); any returned value is
discarded and the body rendered unconditionally. -/
def EthereumTransactionData.to_transaction_data_protobuf
    (self : EthereumTransactionData) (chunk_info : ChunkInfo) :
    MutationOutcome TransactionDataPb :=
  match chunk_info.assert_single_transaction with
  | MutationOutcome.panicked msg => MutationOutcome.panicked msg
  | _ =>
    MutationOutcome.ok
      (TransactionDataPb.ethereumTransaction self.ethereum_data
        (self.call_data_file_id.map FileId.to_protobuf)
        self.max_gas_allowance_hbar.tinybars)

/-- `TokenUnpauseTransactionData::to_transaction_data_protobuf`: same shape
as the Ethereum renderer — no error channel, assertion value discarded, only
a panic escapes. -/
def TokenUnpauseTransactionData.to_transaction_data_protobuf
    (self : TokenUnpauseTransactionData) (chunk_info : ChunkInfo) :
    MutationOutcome TransactionDataPb :=
  match chunk_info.assert_single_transaction with
  | MutationOutcome.panicked msg => MutationOutcome.panicked msg
  | _ =>
    MutationOutcome.ok
      (TransactionDataPb.tokenUnpause (self.token_id.map TokenId.to_protobuf))

/-! ### Concrete fixtures used by witnesses and counterexamples -/

/-- A fresh (mutable, empty) Ethereum transaction. -/
def mutableEthTx : Transaction EthereumTransactionData :=
  Transaction.new EthereumTransactionData.default

/-- The same transaction after an explicit freeze latch. -/
def frozenEthTx : Transaction EthereumTransactionData :=
  { mutableEthTx with body := { mutableEthTx.body with is_frozen := true } }

/-- A file id whose stored checksum (`0`) mismatches the one recomputed for
ledger `1` (`entity_checksum 4 5 6 1 = 254`). -/
def badFileId : FileId := ⟨4, 5, 6, some 0⟩

/-- A mutable Ethereum transaction embedding `badFileId`. -/
def badChecksumTx : Transaction EthereumTransactionData :=
  { mutableEthTx with body :=
      { mutableEthTx.body with data :=
          { EthereumTransactionData.default with call_data_file_id := some badFileId } } }

/-- A client that requests automatic checksum validation against ledger `1`. -/
def checkClient : Client :=
  { random_node_ids := [3]
    max_transaction_fee := 0
    auto_validate_checksums := true
    ledger_id := some 1
    operator := none }

/-- A client with no checksum validation, a configured default fee of `50`
tinybars and an operator. -/
def plainClient : Client :=
  { random_node_ids := [7, 8]
    max_transaction_fee := 50
    auto_validate_checksums := false
    ledger_id := none
    operator := some 9 }

/-- A mutable transaction with an explicit node list and an explicit fee of
`5` tinybars. -/
def feeTx : Transaction EthereumTransactionData :=
  { mutableEthTx with body :=
      { mutableEthTx.body with
          node_account_ids := some [3]
          max_transaction_fee := some ⟨5⟩ } }

/-- A signer backed by a private key with public key `1`. -/
def signerA : AnySigner := AnySigner.privateKey ⟨1⟩

/-- An arbitrary-capability signer with public key `2`. -/
def signerB : AnySigner := AnySigner.arbitrary 2 0

/-! ### Helper lemmas -/

/-- The state produced by `finish_freeze`: all resolved fields written and
the frozen latch set, whatever the validation outcome. -/
theorem finish_freeze_fst [ValidateChecksums D] (self : Transaction D)
    (client : Option Client) (ids : List AccountId) :
    (self.finish_freeze client ids).fst =
      { self with body :=
          { self.body with
              node_account_ids := some ids
              max_transaction_fee :=
                resolve_max_transaction_fee self.body.max_transaction_fee client
              operator := client.bind Client.operator
              is_frozen := true } } := rfl

/-- The result of `finish_freeze` under a validating client with a ledger id
is the payload's checksum validation verdict. -/
theorem finish_freeze_snd_validate [ValidateChecksums D] (self : Transaction D)
    (c : Client) (ids : List AccountId) (ledger_id : LedgerId)
    (hav : c.auto_validate_checksums = true) (hlid : c.ledger_id = some ledger_id) :
    (self.finish_freeze (some c) ids).snd =
      ValidateChecksums.validate_checksums self.body.data ledger_id := by
  simp only [Transaction.finish_freeze, hav, hlid, if_true]

/-- `sign_signer` is a no-op when a signer with the same public key is
already present. -/
theorem sign_signer_skip (tx : Transaction D) (s : AnySigner)
    (h : tx.signers.any (fun it => it.public_key == s.public_key) = true) :
    tx.sign_signer s = tx := by
  simp [Transaction.sign_signer, h]

/-! ### Claims -/

/-- C1 (counterexample): on a frozen transaction, the `transaction_memo`
mutator aborts the process via the `require_not_frozen` panic; it does not
return the recoverable typed `FrozenContractViolation` error the claim
states. -/
theorem frozen_mutator_abort_counterexample :
    frozenEthTx.transaction_memo "m" = MutationOutcome.panicked immutable_msg
    ∧ frozenEthTx.transaction_memo "m"
        ≠ MutationOutcome.err Error.FrozenContractViolation := by
  constructor
  · rfl
  · decide

/-- C1 (amended): on a frozen transaction every field mutator —
`node_account_ids`, `transaction_valid_duration`, `max_transaction_fee`,
`transaction_memo`, `transaction_id`, and every payload-specific setter
reached through `data_mut` (shown generically and for the concrete
`ethereum_data` setter) — fails by panicking with the fixed immutability
message (a process abort, not a recoverable typed error); no mutator is
silently ignored. -/
theorem frozen_mutators_panic (D : Type) (tx : Transaction D)
    (eth : Transaction EthereumTransactionData)
    (ids : List AccountId) (dur : Duration) (fee : Hbar) (memo : String)
    (tid : TransactionId) (f : D → D) (ed : List Nat)
    (h : tx.body.is_frozen = true) (heth : eth.body.is_frozen = true) :
    tx.node_account_ids ids = MutationOutcome.panicked immutable_msg
    ∧ tx.transaction_valid_duration dur = MutationOutcome.panicked immutable_msg
    ∧ tx.max_transaction_fee fee = MutationOutcome.panicked immutable_msg
    ∧ tx.transaction_memo memo = MutationOutcome.panicked immutable_msg
    ∧ tx.transaction_id tid = MutationOutcome.panicked immutable_msg
    ∧ tx.data_mut_set f = MutationOutcome.panicked immutable_msg
    ∧ eth.ethereum_data ed = MutationOutcome.panicked immutable_msg := by
  refine ⟨?_, ?_, ?_, ?_, ?_, ?_, ?_⟩ <;>
    simp [Transaction.node_account_ids, Transaction.transaction_valid_duration,
      Transaction.max_transaction_fee, Transaction.transaction_memo,
      Transaction.transaction_id, Transaction.data_mut_set, Transaction.ethereum_data,
      h, heth]

/-- C1 (witness): the amended statement evaluated on a concrete frozen
transaction. -/
theorem frozen_mutators_panic_witness :
    frozenEthTx.node_account_ids [5] = MutationOutcome.panicked immutable_msg
    ∧ frozenEthTx.transaction_valid_duration 120 = MutationOutcome.panicked immutable_msg
    ∧ frozenEthTx.max_transaction_fee ⟨2⟩ = MutationOutcome.panicked immutable_msg
    ∧ frozenEthTx.transaction_memo "memo" = MutationOutcome.panicked immutable_msg
    ∧ frozenEthTx.transaction_id 7 = MutationOutcome.panicked immutable_msg
    ∧ frozenEthTx.data_mut_set id = MutationOutcome.panicked immutable_msg
    ∧ frozenEthTx.ethereum_data [1] = MutationOutcome.panicked immutable_msg :=
  frozen_mutators_panic EthereumTransactionData frozenEthTx frozenEthTx
    [5] 120 ⟨2⟩ "memo" 7 id [1] rfl rfl

/-- C2 (counterexample): freezing a transaction that embeds a file id with a
mismatched checksum under a validating client returns the checksum error,
yet the transaction ends up frozen (`is_frozen = true`), contradicting the
claim that it remains mutable. -/
theorem checksum_mismatch_counterexample :
    (badChecksumTx.freeze_with (some checkClient)).snd
        = Except.error (Error.BadEntityId 4 5 6 0 254)
    ∧ (badChecksumTx.freeze_with (some checkClient)).fst.body.is_frozen = true := by
  constructor <;> rfl

/-- C2 (amended): if `freeze_with` is called on a mutable transaction with a
client that requests automatic checksum validation (and has a ledger id
configured), and the payload's checksum validation fails, then `freeze_with`
returns that checksum error — but the transaction is frozen afterwards
(`is_frozen = true`): the latch is set before validation runs. -/
theorem checksum_mismatch_still_freezes (D : Type) [ValidateChecksums D]
    (tx : Transaction D) (c : Client) (ledger_id : LedgerId) (e : Error)
    (h : tx.body.is_frozen = false)
    (hav : c.auto_validate_checksums = true)
    (hlid : c.ledger_id = some ledger_id)
    (hv : ValidateChecksums.validate_checksums tx.body.data ledger_id = Except.error e) :
    (tx.freeze_with (some c)).snd = Except.error e
    ∧ (tx.freeze_with (some c)).fst.body.is_frozen = true := by
  obtain ⟨ids, hids⟩ :
      ∃ ids, resolve_node_account_ids tx.body.node_account_ids (some c)
        = Except.ok ids := by
    cases hn : tx.body.node_account_ids <;> simp [resolve_node_account_ids, hn]
  constructor
  · rw [Transaction.freeze_with]
    simp only [h, Bool.false_eq_true, if_false, hids]
    rw [finish_freeze_snd_validate tx c ids ledger_id hav hlid, hv]
  · rw [Transaction.freeze_with]
    simp only [h, Bool.false_eq_true, if_false, hids]
    rw [finish_freeze_fst]

/-- C2 (witness): the amended statement evaluated on the concrete mismatch
fixture. -/
theorem checksum_mismatch_still_freezes_witness :
    (badChecksumTx.freeze_with (some checkClient)).snd
        = Except.error (Error.BadEntityId 4 5 6 0 254)
    ∧ (badChecksumTx.freeze_with (some checkClient)).fst.body.is_frozen = true :=
  checksum_mismatch_still_freezes EthereumTransactionData badChecksumTx checkClient 1
    (Error.BadEntityId 4 5 6 0 254) rfl rfl rfl rfl

/-- C3 (confirmed): on a successful freeze of a mutable transaction the
effective fee follows the precedence — an explicit `max_transaction_fee`
wins; else the client default when it strictly exceeds `1` tinybar; else the
hard-coded per-kind default (applied downstream, modelled by
`effective_max_transaction_fee`). All presence combinations are covered by
the four exhaustive cases. -/
theorem fee_resolution_precedence (D : Type) [ValidateChecksums D]
    (tx : Transaction D) (client : Option Client) (hardcoded : Hbar)
    (h : tx.body.is_frozen = false)
    (hok : (tx.freeze_with client).snd = Except.ok ()) :
    (∀ f, tx.body.max_transaction_fee = some f →
        effective_max_transaction_fee (tx.freeze_with client).fst hardcoded = f)
    ∧ (∀ c, client = some c → tx.body.max_transaction_fee = none →
        1 < c.max_transaction_fee →
        effective_max_transaction_fee (tx.freeze_with client).fst hardcoded
          = Hbar.from_tinybars (u64_as_i64 c.max_transaction_fee))
    ∧ (∀ c, client = some c → tx.body.max_transaction_fee = none →
        ¬ 1 < c.max_transaction_fee →
        effective_max_transaction_fee (tx.freeze_with client).fst hardcoded = hardcoded)
    ∧ (client = none → tx.body.max_transaction_fee = none →
        effective_max_transaction_fee (tx.freeze_with client).fst hardcoded
          = hardcoded) := by
  have key : effective_max_transaction_fee (tx.freeze_with client).fst hardcoded
      = (resolve_max_transaction_fee tx.body.max_transaction_fee client).getD hardcoded := by
    cases hres : resolve_node_account_ids tx.body.node_account_ids client with
    | error e =>
      exfalso
      rw [Transaction.freeze_with] at hok
      simp [h, hres] at hok
    | ok ids =>
      rw [Transaction.freeze_with]
      simp only [h, Bool.false_eq_true, if_false, hres]
      rw [finish_freeze_fst]
      rfl
  refine ⟨?_, ?_, ?_, ?_⟩
  · intro f hf
    rw [key]
    simp [resolve_max_transaction_fee, hf]
  · intro c hc hnone hgt
    subst hc
    rw [key]
    simp [resolve_max_transaction_fee, hnone, hgt]
  · intro c hc hnone hle
    subst hc
    rw [key]
    simp [resolve_max_transaction_fee, hnone, hle]
  · intro hc hnone
    subst hc
    rw [key]
    simp [resolve_max_transaction_fee, hnone]

/-- C3 (witness): an explicitly set fee of `5` tinybars survives a
successful freeze and beats a hard-coded default of `200`. -/
theorem fee_resolution_precedence_witness :
    effective_max_transaction_fee (feeTx.freeze_with none).fst ⟨200⟩ = ⟨5⟩ :=
  (fee_resolution_precedence EthereumTransactionData feeTx none ⟨200⟩ rfl rfl).1 ⟨5⟩ rfl

/-- C4 (counterexample): signing a mutable transaction does not freeze it —
`is_frozen` is still `false` after `sign`. -/
theorem sign_does_not_freeze_counterexample :
    mutableEthTx.body.is_frozen = false
    ∧ (mutableEthTx.sign ⟨1⟩).body.is_frozen = false := ⟨rfl, rfl⟩

/-- C4 (amended): `sign`, `sign_with` and `sign_signer` leave the frozen flag
exactly as it was — signing neither requires nor triggers the transition to
`Frozen`; the implicit transition happens only on submission, where
`execute` calls `freeze_with` before submitting. -/
theorem sign_preserves_frozen_flag (D : Type) (tx : Transaction D)
    (k : PrivateKey) (pk : PublicKey) (cap : Nat) (s : AnySigner) :
    (tx.sign k).body.is_frozen = tx.body.is_frozen
    ∧ (tx.sign_with pk cap).body.is_frozen = tx.body.is_frozen
    ∧ (tx.sign_signer s).body.is_frozen = tx.body.is_frozen := by
  refine ⟨?_, ?_, ?_⟩ <;>
    · simp only [Transaction.sign, Transaction.sign_with, Transaction.sign_signer]
      split <;> rfl

/-- C5 (confirmed): `freeze_with` (hence `freeze`) is idempotent — on an
already-frozen transaction it returns success and the transaction itself,
every field unchanged and nothing re-resolved. -/
theorem freeze_idempotent (D : Type) [ValidateChecksums D] (tx : Transaction D)
    (client : Option Client) (h : tx.body.is_frozen = true) :
    tx.freeze_with client = (tx, Except.ok ()) := by
  rw [Transaction.freeze_with]
  simp [h]

/-- C5 (witness): idempotence evaluated on a concrete frozen transaction. -/
theorem freeze_idempotent_witness :
    frozenEthTx.freeze_with (some plainClient) = (frozenEthTx, Except.ok ()) :=
  freeze_idempotent EthereumTransactionData frozenEthTx (some plainClient) rfl

/-- C6 (confirmed): signer insertion deduplicates by public-key identity —
inserting a key already present is a silent no-op, repeated insertion of the
same key is idempotent, and inserting two distinct keys into an empty signer
list yields exactly those two signers in insertion order. -/
theorem signer_dedup (D : Type) :
    (∀ (tx : Transaction D) (s : AnySigner),
        tx.signers.any (fun it => it.public_key == s.public_key) = true →
        tx.sign_signer s = tx)
    ∧ (∀ (tx : Transaction D) (s1 s2 : AnySigner),
        s1.public_key = s2.public_key →
        (tx.sign_signer s1).sign_signer s2 = tx.sign_signer s1)
    ∧ (∀ (tx : Transaction D) (s1 s2 : AnySigner), tx.signers = [] →
        s1.public_key ≠ s2.public_key →
        ((tx.sign_signer s1).sign_signer s2).signers = [s1, s2]) := by
  refine ⟨fun tx s h => sign_signer_skip tx s h, ?_, ?_⟩
  · intro tx s1 s2 hkey
    apply sign_signer_skip
    by_cases hmem : tx.signers.any (fun it => it.public_key == s1.public_key) = true
    · rw [sign_signer_skip tx s1 hmem, ← hkey]
      exact hmem
    · rw [Transaction.sign_signer, if_neg hmem]
      simp [← hkey]
  · intro tx s1 s2 h0 hne
    have h1 : tx.sign_signer s1 = { tx with signers := [s1] } := by
      rw [Transaction.sign_signer, if_neg]
      · simp [h0]
      · simp [h0]
    rw [h1, Transaction.sign_signer, if_neg]
    · rfl
    · simp [hne]

/-- C6 (witness): the dedup laws evaluated on concrete signers. -/
theorem signer_dedup_witness :
    ((mutableEthTx.sign_signer signerA).sign_signer signerA
        = mutableEthTx.sign_signer signerA)
    ∧ ((mutableEthTx.sign_signer signerA).sign_signer signerB).signers
        = [signerA, signerB] :=
  ⟨(signer_dedup EthereumTransactionData).2.1 mutableEthTx signerA signerA rfl,
   (signer_dedup EthereumTransactionData).2.2 mutableEthTx signerA signerB rfl
     (by decide)⟩

/-- C7 (confirmed): node-list resolution at freeze — an explicit list on the
transaction wins; otherwise the client's randomly drawn node subset is used;
and with neither, `freeze_with` fails with `FreezeUnsetNodeAccountIds`
leaving the transaction unchanged and unfrozen. -/
theorem node_list_resolution (D : Type) [ValidateChecksums D] (tx : Transaction D)
    (h : tx.body.is_frozen = false) :
    (∀ ids client, tx.body.node_account_ids = some ids →
        (tx.freeze_with client).fst.body.node_account_ids = some ids)
    ∧ (∀ c : Client, tx.body.node_account_ids = none →
        (tx.freeze_with (some c)).fst.body.node_account_ids
          = some c.random_node_ids)
    ∧ (tx.body.node_account_ids = none →
        tx.freeze_with none = (tx, Except.error Error.FreezeUnsetNodeAccountIds)
        ∧ (tx.freeze_with none).fst.body.is_frozen = false) := by
  refine ⟨?_, ?_, ?_⟩
  · intro ids client hids
    have hres : resolve_node_account_ids tx.body.node_account_ids client
        = Except.ok ids := by
      simp [resolve_node_account_ids, hids]
    rw [Transaction.freeze_with]
    simp only [h, Bool.false_eq_true, if_false, hres]
    rw [finish_freeze_fst]
  · intro c hn
    have hres : resolve_node_account_ids tx.body.node_account_ids (some c)
        = Except.ok c.random_node_ids := by
      simp [resolve_node_account_ids, hn]
    rw [Transaction.freeze_with]
    simp only [h, Bool.false_eq_true, if_false, hres]
    rw [finish_freeze_fst]
  · intro hn
    have hres : resolve_node_account_ids tx.body.node_account_ids (none : Option Client)
        = Except.error Error.FreezeUnsetNodeAccountIds := by
      simp [resolve_node_account_ids, hn]
    have heq : tx.freeze_with none
        = (tx, Except.error Error.FreezeUnsetNodeAccountIds) := by
      rw [Transaction.freeze_with]
      simp only [h, Bool.false_eq_true, if_false, hres]
    exact ⟨heq, by rw [heq]; exact h⟩

/-- C7 (witness): resolution evaluated with a concrete client and with no
client at all. -/
theorem node_list_resolution_witness :
    (mutableEthTx.freeze_with (some plainClient)).fst.body.node_account_ids
        = some [7, 8]
    ∧ (mutableEthTx.freeze_with none
        = (mutableEthTx, Except.error Error.FreezeUnsetNodeAccountIds)
        ∧ (mutableEthTx.freeze_with none).fst.body.is_frozen = false) :=
  ⟨(node_list_resolution EthereumTransactionData mutableEthTx rfl).2.1 plainClient rfl,
   (node_list_resolution EthereumTransactionData mutableEthTx rfl).2.2 rfl⟩

/-- C8 (counterexample): asking the Ethereum renderer for a chunk with
`total = 2` aborts via the single-transaction assertion's panic; it does not
report the recoverable typed `UnsupportedChunking` error the claim states —
the renderer's Rust signature (`-> services::transaction_body::Data`) has no
error channel at all. -/
theorem chunked_render_abort_counterexample :
    EthereumTransactionData.default.to_transaction_data_protobuf ⟨0, 2, 0⟩
        = MutationOutcome.panicked unsupported_chunking_msg
    ∧ EthereumTransactionData.default.to_transaction_data_protobuf ⟨0, 2, 0⟩
        ≠ MutationOutcome.err Error.UnsupportedChunking := by
  constructor
  · rfl
  · decide

/-- C8 (amended): the single-transaction-only payload kinds (Ethereum and
token-unpause) asked to render a chunk whose `ChunkInfo` describes more than
one chunk abort via the `assert_single_transaction` panic (a process abort —
the contract violation the spec files under `UnsupportedChunking` — not a
recoverable typed error), and render successfully in the degenerate
single-chunk case (`total = 1`). -/
theorem single_chunk_render_contract :
    (∀ (d : EthereumTransactionData) (ci : ChunkInfo), 1 < ci.total →
        d.to_transaction_data_protobuf ci
          = MutationOutcome.panicked unsupported_chunking_msg)
    ∧ (∀ (d : TokenUnpauseTransactionData) (ci : ChunkInfo), 1 < ci.total →
        d.to_transaction_data_protobuf ci
          = MutationOutcome.panicked unsupported_chunking_msg)
    ∧ (∀ (d : EthereumTransactionData) (ci : ChunkInfo), ci.total = 1 →
        d.to_transaction_data_protobuf ci
          = MutationOutcome.ok (TransactionDataPb.ethereumTransaction d.ethereum_data
              (d.call_data_file_id.map FileId.to_protobuf)
              d.max_gas_allowance_hbar.tinybars))
    ∧ (∀ (d : TokenUnpauseTransactionData) (ci : ChunkInfo), ci.total = 1 →
        d.to_transaction_data_protobuf ci
          = MutationOutcome.ok (TransactionDataPb.tokenUnpause
              (d.token_id.map TokenId.to_protobuf))) := by
  refine ⟨?_, ?_, ?_, ?_⟩ <;> intro d ci hci <;>
    simp [EthereumTransactionData.to_transaction_data_protobuf,
      TokenUnpauseTransactionData.to_transaction_data_protobuf,
      ChunkInfo.assert_single_transaction, hci]

/-- C8 (witness): the amended chunking contract evaluated at `total = 2` and
`total = 1`. -/
theorem single_chunk_render_contract_witness :
    EthereumTransactionData.default.to_transaction_data_protobuf ⟨0, 2, 0⟩
        = MutationOutcome.panicked unsupported_chunking_msg
    ∧ EthereumTransactionData.default.to_transaction_data_protobuf ⟨0, 1, 0⟩
        = MutationOutcome.ok (TransactionDataPb.ethereumTransaction [] none 0) :=
  ⟨single_chunk_render_contract.1 EthereumTransactionData.default ⟨0, 2, 0⟩ (by decide),
   single_chunk_render_contract.2.2.1 EthereumTransactionData.default ⟨0, 1, 0⟩ rfl⟩

/-- C9 (confirmed): signing does not mutate the logical envelope — the whole
body (payload, node list, validity duration, fee, memo, transaction id,
operator, frozen flag) is unchanged by `sign`, `sign_with` and
`sign_signer`; only the signer list may grow (by exactly the new entry,
appended at the end, or not at all). -/
theorem sign_frame (D : Type) (tx : Transaction D) (k : PrivateKey)
    (pk : PublicKey) (cap : Nat) (s : AnySigner) :
    (tx.sign_signer s).body = tx.body
    ∧ (tx.sign k).body = tx.body
    ∧ (tx.sign_with pk cap).body = tx.body
    ∧ ((tx.sign_signer s).signers = tx.signers
        ∨ (tx.sign_signer s).signers = tx.signers ++ [s]) := by
  refine ⟨?_, ?_, ?_, ?_⟩ <;>
    · simp only [Transaction.sign, Transaction.sign_with, Transaction.sign_signer]
      split
      · first
          | exact Or.inl rfl
          | rfl
      · first
          | exact Or.inr rfl
          | rfl

/-- C10 (confirmed): when `freeze_with` succeeds on a previously mutable
transaction, the transaction is frozen afterwards and its node list is
concretely present (`node_account_ids` is `some`). -/
theorem freeze_success_invariant (D : Type) [ValidateChecksums D]
    (tx : Transaction D) (client : Option Client)
    (h : tx.body.is_frozen = false)
    (hok : (tx.freeze_with client).snd = Except.ok ()) :
    (tx.freeze_with client).fst.body.is_frozen = true
    ∧ ((tx.freeze_with client).fst.body.node_account_ids).isSome = true := by
  cases hres : resolve_node_account_ids tx.body.node_account_ids client with
  | error e =>
    exfalso
    rw [Transaction.freeze_with] at hok
    simp [h, hres] at hok
  | ok ids =>
    rw [Transaction.freeze_with]
    simp only [h, Bool.false_eq_true, if_false, hres]
    rw [finish_freeze_fst]
    exact ⟨rfl, rfl⟩

/-- C10 (witness): the invariant evaluated on a concrete successful freeze. -/
theorem freeze_success_invariant_witness :
    (mutableEthTx.freeze_with (some plainClient)).fst.body.is_frozen = true
    ∧ ((mutableEthTx.freeze_with (some plainClient)).fst.body.node_account_ids).isSome
        = true :=
  freeze_success_invariant EthereumTransactionData mutableEthTx (some plainClient)
    rfl rfl

end Hedera
